import Mathlib

/-!
Shallow embedding of the reward-shaping and task-initialization core of
`src/metaworld/envs/mujoco/sawyer_xyz/v2/sawyer_soccer_v2.py`
(class `SawyerSoccerEnvV2`), over the real numbers.

Pure numeric code is translated function by function; the per-episode
cached state (pad positions, initial tool-center-point, object initial
position, target position, contact flag) is an explicit `EnvState` record,
and the random draws consumed by `reset_model` are an explicit stream of
candidate vectors.
-/

namespace SoccerV2

open Classical

/-- A 3-component position vector, the `SpatialPoint` of the data model. -/
structure Vec3 where
  x : ℝ
  y : ℝ
  z : ℝ

noncomputable instance : Sub Vec3 :=
  ⟨fun a b => ⟨a.x - b.x, a.y - b.y, a.z - b.z⟩⟩

theorem Vec3.sub_def (a b : Vec3) : a - b = ⟨a.x - b.x, a.y - b.y, a.z - b.z⟩ :=
  rfl

/-- Euclidean norm of a 3-vector: `np.linalg.norm(v)`. -/
noncomputable def vnorm (v : Vec3) : ℝ :=
  Real.sqrt (v.x ^ 2 + v.y ^ 2 + v.z ^ 2)

/-- Elementwise product with `x_scaling = np.array([3.0, 1.0, 1.0])`
(`compute_reward`, line 254): the first axis is weighted by 3, the other
two by 1. -/
noncomputable def scale3 (v : Vec3) : Vec3 :=
  ⟨3 * v.x, v.y, v.z⟩

/-- `np.clip(v, lo, hi)`. -/
noncomputable def clip (v lo hi : ℝ) : ℝ :=
  max lo (min v hi)

/-- `SawyerSoccerEnvV2.OBJ_RADIUS`. -/
noncomputable def OBJ_RADIUS : ℝ := 0.013

/-- `SawyerSoccerEnvV2.TARGET_RADIUS`. -/
noncomputable def TARGET_RADIUS : ℝ := 0.07

/-- Modelled from the spec: `reward_utils.hamacher_product` (the module
`metaworld/envs/reward_utils.py` is imported by the source file but is not
part of the repository snapshot).  Spec 4.2: the Hamacher product
`a*b / (a + b - a*b)`, guarded against division by zero (`0` when the
denominator is not positive, which for `a, b ∈ [0,1]` happens exactly at
`a = b = 0`). -/
noncomputable def hamacher_product (a b : ℝ) : ℝ :=
  if 0 < a + b - a * b then a * b / (a + b - a * b) else 0

/-- Modelled from the spec: the `long_tail` decay curve of
`reward_utils.tolerance` (module not in the repository snapshot).
Spec 4.1: fast initial decay followed by a long near-zero tail, equal to
`1` at `d = 0` and small (here `0.1`) at `d = 1`, one unit of `d` being one
margin-length of distance from the perfect interval. -/
noncomputable def long_tail (d : ℝ) : ℝ :=
  1 / (9 * d ^ 2 + 1)

/-- Modelled from the spec: `reward_utils.tolerance` with the `long_tail`
sigmoid, the only shape this system uses (module
`metaworld/envs/reward_utils.py` not in the repository snapshot).
Spec 4.1: returns `1.0` exactly when `value ∈ [lo, hi]`; a margin of `0`
makes the function a hard indicator (no division by zero); otherwise the
distance from the interval, divided by the margin, feeds the decay curve. -/
noncomputable def tolerance (value lo hi margin : ℝ) : ℝ :=
  if lo ≤ value ∧ value ≤ hi then 1
  else if margin = 0 then 0
  else long_tail ((if value < lo then lo - value else value - hi) / margin)

/-- The per-episode cached state read by the reward computations: current
body positions queried from the simulation, the episode-start snapshots,
the episode's task configuration, and the contact predicate. -/
structure EnvState where
  tcp_center : Vec3
  left_pad : Vec3
  right_pad : Vec3
  init_left_pad : Vec3
  init_right_pad : Vec3
  init_tcp : Vec3
  obj_init_pos : Vec3
  target_pos : Vec3
  touching_object : Prop

/-! ## `_gripper_caging_reward` (source lines 165-249), decomposed into its
straight-line intermediates. -/

/-- `pad_success_margin = 0.05` (line 166). -/
noncomputable def pad_success_margin : ℝ := 0.05

/-- `x_z_success_margin = 0.005` (line 168). -/
noncomputable def x_z_success_margin : ℝ := 0.005

/-- `delta_object_y_left_pad = left_pad[1] - obj_position[1]` (line 173). -/
noncomputable def delta_object_y_left_pad (s : EnvState) (obj_position : Vec3) : ℝ :=
  s.left_pad.y - obj_position.y

/-- `delta_object_y_right_pad = obj_position[1] - right_pad[1]` (line 174). -/
noncomputable def delta_object_y_right_pad (s : EnvState) (obj_position : Vec3) : ℝ :=
  obj_position.y - s.right_pad.y

/-- `right_caging_margin` (lines 175-177). -/
noncomputable def right_caging_margin (s : EnvState) (obj_position : Vec3) : ℝ :=
  |(|obj_position.y - s.init_right_pad.y|) - pad_success_margin|

/-- `left_caging_margin` (lines 178-180). -/
noncomputable def left_caging_margin (s : EnvState) (obj_position : Vec3) : ℝ :=
  |(|obj_position.y - s.init_left_pad.y|) - pad_success_margin|

/-- `right_caging` (lines 182-187). -/
noncomputable def right_caging (s : EnvState) (obj_position : Vec3) (obj_radius : ℝ) : ℝ :=
  tolerance (delta_object_y_right_pad s obj_position) obj_radius pad_success_margin
    (right_caging_margin s obj_position)

/-- `left_caging` (lines 188-193). -/
noncomputable def left_caging (s : EnvState) (obj_position : Vec3) (obj_radius : ℝ) : ℝ :=
  tolerance (delta_object_y_left_pad s obj_position) obj_radius pad_success_margin
    (left_caging_margin s obj_position)

/-- `right_gripping` (lines 195-200); `grip_success_margin = obj_radius + 0.01`. -/
noncomputable def right_gripping (s : EnvState) (obj_position : Vec3) (obj_radius : ℝ) : ℝ :=
  tolerance (delta_object_y_right_pad s obj_position) obj_radius (obj_radius + 0.01)
    (right_caging_margin s obj_position)

/-- `left_gripping` (lines 201-206). -/
noncomputable def left_gripping (s : EnvState) (obj_position : Vec3) (obj_radius : ℝ) : ℝ :=
  tolerance (delta_object_y_left_pad s obj_position) obj_radius (obj_radius + 0.01)
    (left_caging_margin s obj_position)

/-- `y_caging = hamacher_product(right_caging, left_caging)` (line 211). -/
noncomputable def y_caging (s : EnvState) (obj_position : Vec3) (obj_radius : ℝ) : ℝ :=
  hamacher_product (right_caging s obj_position obj_radius)
    (left_caging s obj_position obj_radius)

/-- `y_gripping = hamacher_product(right_gripping, left_gripping)` (line 212). -/
noncomputable def y_gripping (s : EnvState) (obj_position : Vec3) (obj_radius : ℝ) : ℝ :=
  hamacher_product (right_gripping s obj_position obj_radius)
    (left_gripping s obj_position obj_radius)

/-- Projection of a point onto the x/z plane: `p + [0, -p[1], 0]`
(lines 216-222). -/
noncomputable def xz (p : Vec3) : Vec3 :=
  ⟨p.x, 0, p.z⟩

/-- `tcp_obj_norm_x_z` (line 220). -/
noncomputable def tcp_obj_norm_x_z (s : EnvState) (obj_position : Vec3) : ℝ :=
  vnorm (xz s.tcp_center - xz obj_position)

/-- `tcp_obj_x_z_margin` (lines 224-226). -/
noncomputable def tcp_obj_x_z_margin (s : EnvState) : ℝ :=
  vnorm (xz s.obj_init_pos - xz s.init_tcp) - x_z_success_margin

/-- `x_z_caging` (lines 227-232). -/
noncomputable def x_z_caging (s : EnvState) (obj_position : Vec3) : ℝ :=
  tolerance (tcp_obj_norm_x_z s obj_position) 0 x_z_success_margin (tcp_obj_x_z_margin s)

/-- `gripper_closed = min(max(0, action[-1]), 1)` (line 235): the commanded
gripper-closing scalar, defensively clamped to `[0,1]`. -/
noncomputable def gripper_closed (action : List ℝ) : ℝ :=
  min (max 0 (action.getLastD 0)) 1

/-- `caging = hamacher_product(y_caging, x_z_caging)` (line 237). -/
noncomputable def caging (s : EnvState) (obj_position : Vec3) (obj_radius : ℝ) : ℝ :=
  hamacher_product (y_caging s obj_position obj_radius) (x_z_caging s obj_position)

/-- `gripping` (lines 240-243): `y_gripping` when `caging > 0.95`, else `0`. -/
noncomputable def gripping (s : EnvState) (obj_position : Vec3) (obj_radius : ℝ) : ℝ :=
  if 0.95 < caging s obj_position obj_radius then y_gripping s obj_position obj_radius
  else 0

/-- `_gripper_caging_reward` (lines 165-249): the clamped gripper command is
computed (and asserted in range) but enters no term of the result; the
returned value is `(caging + gripping) / 2`. -/
noncomputable def gripper_caging_reward (s : EnvState) (action : List ℝ)
    (obj_position : Vec3) (obj_radius : ℝ) : ℝ :=
  let _gc := gripper_closed action
  (caging s obj_position obj_radius + gripping s obj_position obj_radius) / 2

/-! ## `compute_reward` (source lines 251-285) and `evaluate_state`
(source lines 77-106). -/

/-- `obj = obs[4:7]` (lines 79 and 252). -/
noncomputable def obsObj (obs : ℕ → ℝ) : Vec3 :=
  ⟨obs 4, obs 5, obs 6⟩

/-- The 6-tuple `compute_reward` returns (lines 278-285). -/
structure RewardBreakdown where
  reward : ℝ
  tcp_to_obj : ℝ
  tcp_opened : ℝ
  target_to_obj : ℝ
  object_grasped : ℝ
  in_place : ℝ

/-- `compute_reward(action, obs)` (lines 251-285). -/
noncomputable def compute_reward (s : EnvState) (action : List ℝ) (obs : ℕ → ℝ) :
    RewardBreakdown :=
  let obj := obsObj obs
  let tcp_opened := obs 3
  let tcp_to_obj := vnorm (obj - s.tcp_center)
  let target_to_obj := vnorm (scale3 (obj - s.target_pos))
  let target_to_obj_init := vnorm (scale3 (obj - s.obj_init_pos))
  let in_place := tolerance target_to_obj 0 TARGET_RADIUS target_to_obj_init
  let goal_line := s.target_pos.y - 0.1
  let in_place2 :=
    if obj.y > goal_line ∧ |obj.x - s.target_pos.x| > 0.10 then
      clip (in_place - 2 * ((obj.y - goal_line) / (1 - goal_line))) 0 1
    else in_place
  let object_grasped := gripper_caging_reward s action obj OBJ_RADIUS
  let reward := 3 * object_grasped + 6.5 * in_place2
  let reward2 := if target_to_obj < TARGET_RADIUS then 10.0 else reward
  { reward := reward2
    tcp_to_obj := tcp_to_obj
    tcp_opened := tcp_opened
    target_to_obj := vnorm (obj - s.target_pos)
    object_grasped := object_grasped
    in_place := in_place2 }

/-- The `info` dictionary built by `evaluate_state` (lines 96-104). -/
structure StepInfo where
  success : ℝ
  near_object : ℝ
  grasp_success : ℝ
  grasp_reward : ℝ
  in_place_reward : ℝ
  obj_to_target : ℝ
  unscaled_reward : ℝ

/-- `evaluate_state(obs, action)` (lines 77-106). -/
noncomputable def evaluate_state (s : EnvState) (obs : ℕ → ℝ) (action : List ℝ) :
    ℝ × StepInfo :=
  let obj := obsObj obs
  let r := compute_reward s action obs
  let success : ℝ := if r.target_to_obj ≤ 0.07 then 1 else 0
  let near_object : ℝ := if r.tcp_to_obj ≤ 0.03 then 1 else 0
  let grasp_success : ℝ :=
    if s.touching_object ∧ 0 < r.tcp_opened ∧ s.obj_init_pos.z < obj.z - 0.02 then 1
    else 0
  (r.reward,
    { success := success
      near_object := near_object
      grasp_success := grasp_success
      grasp_reward := r.object_grasped
      in_place_reward := r.in_place
      obj_to_target := r.target_to_obj
      unscaled_reward := r.reward })

/-! ## `reset_model` (source lines 143-163): the rejection-sampling task
initializer.  `_get_state_rand_vec` (inherited from the shared base
environment, outside this file) supplies the 6-component candidate vectors;
they are modelled as an explicit stream of draws. -/

/-- One candidate vector from `_get_state_rand_vec`: its first three
components place the object, its last three the goal. -/
structure RandVec where
  o : Vec3
  g : Vec3

/-- `obj_low = obj_high = (0, 0.65, 0.03)` (lines 41-42). -/
noncomputable def obj_low : Vec3 := ⟨0, 0.65, 0.03⟩

/-- `goal_low = goal_high = (0, 0.85, 0.0)` (lines 43-44). -/
noncomputable def goal_low : Vec3 := ⟨0, 0.85, 0⟩

/-- Membership in `_random_reset_space` (lines 67-70), the box the external
sampler draws from: both halves between their (here coinciding) low and
high corners, componentwise. -/
def inBox (v : RandVec) : Prop :=
  obj_low.x ≤ v.o.x ∧ v.o.x ≤ obj_low.x ∧
  obj_low.y ≤ v.o.y ∧ v.o.y ≤ obj_low.y ∧
  obj_low.z ≤ v.o.z ∧ v.o.z ≤ obj_low.z ∧
  goal_low.x ≤ v.g.x ∧ v.g.x ≤ goal_low.x ∧
  goal_low.y ≤ v.g.y ∧ v.g.y ≤ goal_low.y ∧
  goal_low.z ≤ v.g.z ∧ v.g.z ≤ goal_low.z

/-- `np.linalg.norm(goal_pos[:2] - self._target_pos[:2])` for a candidate
whose target is its own goal half (lines 150-152): the Euclidean distance
between the object's and the goal's first-two-axis coordinates. -/
noncomputable def sep (v : RandVec) : ℝ :=
  Real.sqrt ((v.o.x - v.g.x) ^ 2 + (v.o.y - v.g.y) ^ 2)

/-- The loop guard at line 150 rejects a candidate while `sep < 0.15`; a
candidate is accepted when `0.15 ≤ sep`. -/
def accepts (v : RandVec) : Prop :=
  0.15 ≤ sep v

/-- The index of the draw the `while` loop at lines 150-152 stops at: the
first accepted one. -/
noncomputable def accepted_index (draws : ℕ → RandVec) (h : ∃ n, accepts (draws n)) : ℕ :=
  Nat.find h

/-- The per-episode configuration `reset_model` commits (lines 149-161). -/
structure ResetResult where
  target_pos : Vec3
  obj_init_pos : Vec3
  maxPushDist : ℝ

/-- `reset_model` (lines 143-163) as a function of the stored
`obj_init_pos` third component and the draw stream: the accepted draw's
goal half becomes `_target_pos`, the object's first two components come
from the draw's object half and its third from the stored value
(line 154), and `maxPushDist` is the first-two-axis distance between
them (lines 159-161). -/
noncomputable def reset_model (prev_obj_init_z : ℝ) (draws : ℕ → RandVec)
    (h : ∃ n, accepts (draws n)) : ResetResult :=
  let v := draws (accepted_index draws h)
  { target_pos := v.g
    obj_init_pos := ⟨v.o.x, v.o.y, prev_obj_init_z⟩
    maxPushDist := Real.sqrt ((v.o.x - v.g.x) ^ 2 + (v.o.y - v.g.y) ^ 2) }

/-- `init_config["obj_init_pos"] = np.array([0, 0.6, 0.03])` (line 57), the
configured constant the stored `obj_init_pos` starts from. -/
noncomputable def init_obj_init_pos : Vec3 := ⟨0, 0.6, 0.03⟩

/-! ## Shared helper lemmas. -/

theorem sqrt_eval {a b : ℝ} (hb : 0 ≤ b) (h : b ^ 2 = a) : Real.sqrt a = b := by
  rw [← h]
  exact Real.sqrt_sq hb

theorem long_tail_pos (d : ℝ) : 0 < long_tail d := by
  unfold long_tail
  positivity

theorem long_tail_le_one (d : ℝ) : long_tail d ≤ 1 := by
  unfold long_tail
  rw [div_le_one (by positivity)]
  nlinarith [sq_nonneg d]

theorem tolerance_nonneg (value lo hi margin : ℝ) : 0 ≤ tolerance value lo hi margin := by
  unfold tolerance
  split
  · norm_num
  split
  · norm_num
  · exact (long_tail_pos _).le

theorem tolerance_le_one (value lo hi margin : ℝ) : tolerance value lo hi margin ≤ 1 := by
  unfold tolerance
  split
  · norm_num
  split
  · norm_num
  · exact long_tail_le_one _

theorem hamacher_nonneg {a b : ℝ} (ha : 0 ≤ a) (hb : 0 ≤ b) :
    0 ≤ hamacher_product a b := by
  unfold hamacher_product
  split
  · positivity
  · norm_num

theorem hamacher_le_one {a b : ℝ} (ha : 0 ≤ a) (ha1 : a ≤ 1) (hb : 0 ≤ b) (hb1 : b ≤ 1) :
    hamacher_product a b ≤ 1 := by
  unfold hamacher_product
  split
  · rw [div_le_one (by assumption)]
    nlinarith
  · norm_num

theorem hamacher_zero_left (b : ℝ) : hamacher_product 0 b = 0 := by
  unfold hamacher_product
  split <;> simp

theorem hamacher_zero_right (a : ℝ) : hamacher_product a 0 = 0 := by
  unfold hamacher_product
  split <;> simp

theorem hamacher_comm (a b : ℝ) : hamacher_product a b = hamacher_product b a := by
  unfold hamacher_product
  have h1 : a + b - a * b = b + a - b * a := by ring
  rw [h1, mul_comm a b]

theorem hamacher_mono_left {a a2 b : ℝ} (ha : 0 ≤ a) (haa : a ≤ a2)
    (hb : 0 ≤ b) (hb1 : b ≤ 1) : hamacher_product a b ≤ hamacher_product a2 b := by
  rcases eq_or_lt_of_le hb with hb0 | hbpos
  · rw [← hb0, hamacher_zero_right, hamacher_zero_right]
  · have hd1 : 0 < a + b - a * b := by nlinarith
    have hd2 : 0 < a2 + b - a2 * b := by nlinarith
    unfold hamacher_product
    rw [if_pos hd1, if_pos hd2, div_le_div_iff₀ hd1 hd2]
    nlinarith [sq_nonneg b]

theorem clip_nonneg (v hi : ℝ) : 0 ≤ clip v 0 hi := le_max_left 0 _

theorem clip_le_one (v : ℝ) : clip v 0 1 ≤ 1 := by
  unfold clip
  rw [max_le_iff]
  exact ⟨zero_le_one, min_le_right _ _⟩

theorem indicator_eq_one {c : Prop} [Decidable c] : ((if c then (1 : ℝ) else 0) = 1) ↔ c := by
  split
  · simpa
  · simpa

/-! ## A concrete episode state used by the counterexamples: the object sits
`0.05` ahead of the target along the first axis, at its own initial
position, the right pad is far from the object on the second axis, and the
episode geometry makes the right caging margin zero. -/

noncomputable def cexState : EnvState :=
  { tcp_center := ⟨0, 0, 0⟩
    left_pad := ⟨0, 0, 0⟩
    right_pad := ⟨0, 1, 0⟩
    init_left_pad := ⟨0, 0, 0⟩
    init_right_pad := ⟨0, 0.05, 0⟩
    init_tcp := ⟨0, 0, 0⟩
    obj_init_pos := ⟨0.05, 0, 0⟩
    target_pos := ⟨0, 0, 0⟩
    touching_object := False }

noncomputable def cexObj : Vec3 := ⟨0.05, 0, 0⟩

noncomputable def cexObs : ℕ → ℝ := fun n => if n = 4 then 0.05 else 0

theorem cex_margin_right : right_caging_margin cexState cexObj = 0 := by
  simp only [right_caging_margin, cexState, cexObj, pad_success_margin]
  norm_num [abs_eq_max_neg, max_def]

theorem cex_right_caging : right_caging cexState cexObj OBJ_RADIUS = 0 := by
  unfold right_caging
  rw [cex_margin_right]
  simp only [tolerance, delta_object_y_right_pad, cexState, cexObj, OBJ_RADIUS,
    pad_success_margin]
  norm_num

theorem cex_right_gripping : right_gripping cexState cexObj OBJ_RADIUS = 0 := by
  unfold right_gripping
  rw [cex_margin_right]
  simp only [tolerance, delta_object_y_right_pad, cexState, cexObj, OBJ_RADIUS]
  norm_num

theorem cex_y_caging : y_caging cexState cexObj OBJ_RADIUS = 0 := by
  unfold y_caging
  rw [cex_right_caging, hamacher_zero_left]

theorem cex_y_gripping : y_gripping cexState cexObj OBJ_RADIUS = 0 := by
  unfold y_gripping
  rw [cex_right_gripping, hamacher_zero_left]

theorem cex_caging : caging cexState cexObj OBJ_RADIUS = 0 := by
  unfold caging
  rw [cex_y_caging, hamacher_zero_left]

theorem cex_gripping : gripping cexState cexObj OBJ_RADIUS = 0 := by
  unfold gripping
  rw [cex_caging]
  norm_num

theorem cex_grasp (a : List ℝ) : gripper_caging_reward cexState a cexObj OBJ_RADIUS = 0 := by
  unfold gripper_caging_reward
  rw [cex_caging, cex_gripping]
  norm_num

/-! ## The claims. -/

/-- Claim C8: the Hamacher product maps `[0,1] × [0,1]` into `[0,1]`, is `0`
whenever either argument is `0` (the `a = b = 0` case guarded against
division by zero), is `1` at `(1,1)`, is symmetric, and is monotonic
non-decreasing in each argument. -/
theorem hamacher_product_props :
    (∀ a b : ℝ, 0 ≤ a → a ≤ 1 → 0 ≤ b → b ≤ 1 →
      0 ≤ hamacher_product a b ∧ hamacher_product a b ≤ 1) ∧
    (∀ a : ℝ, hamacher_product a 0 = 0) ∧
    (∀ b : ℝ, hamacher_product 0 b = 0) ∧
    hamacher_product 1 1 = 1 ∧
    (∀ a b : ℝ, hamacher_product a b = hamacher_product b a) ∧
    (∀ a a2 b : ℝ, 0 ≤ a → a ≤ a2 → a2 ≤ 1 → 0 ≤ b → b ≤ 1 →
      hamacher_product a b ≤ hamacher_product a2 b) ∧
    (∀ a b b2 : ℝ, 0 ≤ a → a ≤ 1 → 0 ≤ b → b ≤ b2 → b2 ≤ 1 →
      hamacher_product a b ≤ hamacher_product a b2) := by
  refine ⟨fun a b ha ha1 hb hb1 => ⟨hamacher_nonneg ha hb, hamacher_le_one ha ha1 hb hb1⟩,
    hamacher_zero_right, hamacher_zero_left, ?_, hamacher_comm, ?_, ?_⟩
  · unfold hamacher_product
    norm_num
  · intro a a2 b ha haa _ hb hb1
    exact hamacher_mono_left ha haa hb hb1
  · intro a b b2 ha ha1 hb hbb _
    rw [hamacher_comm a b, hamacher_comm a b2]
    exact hamacher_mono_left hb hbb ha ha1

/-- Claim C7: for every episode state, action, object position and radius,
every intermediate of the caging-reward computation (per-side caging and
gripping tolerances, their fuzzy combinations, the x/z alignment score,
`caging`, `gripping`, the clamped gripper command) and the returned value
lie in `[0,1]`, so the in-range assertions in `_gripper_caging_reward`
never fail. -/
theorem caging_reward_bounds (s : EnvState) (action : List ℝ) (obj : Vec3) (r : ℝ) :
    (0 ≤ right_caging s obj r ∧ right_caging s obj r ≤ 1) ∧
    (0 ≤ left_caging s obj r ∧ left_caging s obj r ≤ 1) ∧
    (0 ≤ right_gripping s obj r ∧ right_gripping s obj r ≤ 1) ∧
    (0 ≤ left_gripping s obj r ∧ left_gripping s obj r ≤ 1) ∧
    (0 ≤ y_caging s obj r ∧ y_caging s obj r ≤ 1) ∧
    (0 ≤ y_gripping s obj r ∧ y_gripping s obj r ≤ 1) ∧
    (0 ≤ x_z_caging s obj ∧ x_z_caging s obj ≤ 1) ∧
    (0 ≤ caging s obj r ∧ caging s obj r ≤ 1) ∧
    (0 ≤ gripping s obj r ∧ gripping s obj r ≤ 1) ∧
    (0 ≤ gripper_closed action ∧ gripper_closed action ≤ 1) ∧
    (0 ≤ gripper_caging_reward s action obj r ∧ gripper_caging_reward s action obj r ≤ 1) := by
  have rc := And.intro (tolerance_nonneg (delta_object_y_right_pad s obj) r pad_success_margin
    (right_caging_margin s obj)) (tolerance_le_one (delta_object_y_right_pad s obj) r
    pad_success_margin (right_caging_margin s obj))
  have lc := And.intro (tolerance_nonneg (delta_object_y_left_pad s obj) r pad_success_margin
    (left_caging_margin s obj)) (tolerance_le_one (delta_object_y_left_pad s obj) r
    pad_success_margin (left_caging_margin s obj))
  have rg := And.intro (tolerance_nonneg (delta_object_y_right_pad s obj) r (r + 0.01)
    (right_caging_margin s obj)) (tolerance_le_one (delta_object_y_right_pad s obj) r (r + 0.01)
    (right_caging_margin s obj))
  have lg := And.intro (tolerance_nonneg (delta_object_y_left_pad s obj) r (r + 0.01)
    (left_caging_margin s obj)) (tolerance_le_one (delta_object_y_left_pad s obj) r (r + 0.01)
    (left_caging_margin s obj))
  have yc : 0 ≤ y_caging s obj r ∧ y_caging s obj r ≤ 1 :=
    ⟨hamacher_nonneg rc.1 lc.1, hamacher_le_one rc.1 rc.2 lc.1 lc.2⟩
  have yg : 0 ≤ y_gripping s obj r ∧ y_gripping s obj r ≤ 1 :=
    ⟨hamacher_nonneg rg.1 lg.1, hamacher_le_one rg.1 rg.2 lg.1 lg.2⟩
  have xz0 := And.intro (tolerance_nonneg (tcp_obj_norm_x_z s obj) 0 x_z_success_margin
    (tcp_obj_x_z_margin s)) (tolerance_le_one (tcp_obj_norm_x_z s obj) 0 x_z_success_margin
    (tcp_obj_x_z_margin s))
  have cg : 0 ≤ caging s obj r ∧ caging s obj r ≤ 1 :=
    ⟨hamacher_nonneg yc.1 xz0.1, hamacher_le_one yc.1 yc.2 xz0.1 xz0.2⟩
  have gr : 0 ≤ gripping s obj r ∧ gripping s obj r ≤ 1 := by
    unfold gripping
    split
    · exact yg
    · norm_num
  have gc : 0 ≤ gripper_closed action ∧ gripper_closed action ≤ 1 :=
    ⟨le_min (le_max_left 0 _) zero_le_one, min_le_right _ 1⟩
  refine ⟨rc, lc, rg, lg, yc, yg, xz0, cg, gr, gc, ?_, ?_⟩
  · unfold gripper_caging_reward
    linarith [cg.1, gr.1]
  · unfold gripper_caging_reward
    linarith [cg.2, gr.2]

/-- Claim C3 (amended): the caging reward returns
`(caging + gripping) / 2`, where `gripping` is `y_gripping` when
`caging > 0.95` and `0` otherwise (the converse of the claim's "if and only
if" fails when `y_gripping = 0`). -/
theorem caging_gripping_structure (s : EnvState) (action : List ℝ) (obj : Vec3) (r : ℝ) :
    gripper_caging_reward s action obj r = (caging s obj r + gripping s obj r) / 2 ∧
    (0.95 < caging s obj r → gripping s obj r = y_gripping s obj r) ∧
    (¬ 0.95 < caging s obj r → gripping s obj r = 0) := by
  refine ⟨rfl, ?_, ?_⟩
  · intro h
    unfold gripping
    rw [if_pos h]
  · intro h
    unfold gripping
    rw [if_neg h]

/-- Claim C10: the caging reward is independent of the action argument (the
clamped gripper-closing command is computed and in `[0,1]` but enters no
term of the returned score). -/
theorem caging_reward_action_independent :
    (∀ (s : EnvState) (obj : Vec3) (r : ℝ) (a1 a2 : List ℝ),
      gripper_caging_reward s a1 obj r = gripper_caging_reward s a2 obj r) ∧
    (∀ a : List ℝ, 0 ≤ gripper_closed a ∧ gripper_closed a ≤ 1) := by
  refine ⟨fun s obj r a1 a2 => rfl, fun a =>
    ⟨le_min (le_max_left 0 _) zero_le_one, min_le_right _ 1⟩⟩

/-- Claim C3 counterexample: at a concrete input, `gripping` equals
`y_gripping` (both are `0`) while `caging` is not greater than `0.95`, so
"`gripping = y_gripping` if and only if `caging > 0.95`" is false. -/
theorem caging_gripping_iff_cex :
    gripping cexState cexObj OBJ_RADIUS = y_gripping cexState cexObj OBJ_RADIUS ∧
    ¬ 0.95 < caging cexState cexObj OBJ_RADIUS := by
  rw [cex_gripping, cex_y_gripping, cex_caging]
  norm_num

/-- Claim C1 (amended): `compute_reward` returns
`3*object_grasped + 6.5*in_place`, except that whenever the WEIGHTED
(first axis tripled) object-to-target distance is strictly less than
`TARGET_RADIUS`, the returned reward is exactly `10.0`. -/
theorem compute_reward_weighted_override (s : EnvState) (action : List ℝ) (obs : ℕ → ℝ) :
    (compute_reward s action obs).reward =
      if vnorm (scale3 (obsObj obs - s.target_pos)) < TARGET_RADIUS then 10
      else 3 * (compute_reward s action obs).object_grasped +
        6.5 * (compute_reward s action obs).in_place := by
  simp only [compute_reward]
  split_ifs with h <;> norm_num

/-- Claim C1 counterexample: at a concrete input the true (unweighted)
object-to-target distance is `0.05 < 0.07`, yet the returned reward is not
`10.0` (the code's override tests the weighted distance, here `0.15`). -/
theorem compute_reward_unweighted_cex :
    vnorm (obsObj cexObs - cexState.target_pos) < TARGET_RADIUS ∧
    (compute_reward cexState [0] cexObs).reward ≠ 10 := by
  have hobj : obsObj cexObs = cexObj := by
    simp [obsObj, cexObs, cexObj]
  have hsub1 : cexObj - cexState.target_pos = ⟨0.05, 0, 0⟩ := by
    simp only [cexObj, cexState, Vec3.sub_def]
    norm_num
  have hn1 : vnorm (⟨0.05, 0, 0⟩ : Vec3) = 0.05 := by
    simp only [vnorm]
    rw [show (0.05 : ℝ) ^ 2 + 0 ^ 2 + 0 ^ 2 = 0.05 ^ 2 from by norm_num,
      Real.sqrt_sq (by norm_num)]
  have hscale : scale3 (⟨0.05, 0, 0⟩ : Vec3) = ⟨0.15, 0, 0⟩ := by
    simp only [scale3]
    norm_num
  have hw : vnorm (⟨0.15, 0, 0⟩ : Vec3) = 0.15 := by
    simp only [vnorm]
    rw [show (0.15 : ℝ) ^ 2 + 0 ^ 2 + 0 ^ 2 = 0.15 ^ 2 from by norm_num,
      Real.sqrt_sq (by norm_num)]
  have hsub2 : cexObj - cexState.obj_init_pos = ⟨0, 0, 0⟩ := by
    simp only [cexObj, cexState, Vec3.sub_def]
    norm_num
  have hscale2 : scale3 (⟨0, 0, 0⟩ : Vec3) = ⟨0, 0, 0⟩ := by
    simp only [scale3]
    norm_num
  have hzero : vnorm (⟨0, 0, 0⟩ : Vec3) = 0 := by
    simp only [vnorm]
    norm_num
  have hip : tolerance 0.15 0 TARGET_RADIUS 0 = 0 := by
    simp only [tolerance, TARGET_RADIUS]
    norm_num
  constructor
  · rw [hobj, hsub1, hn1]
    simp only [TARGET_RADIUS]
    norm_num
  · simp only [compute_reward, hobj]
    rw [hsub1, hscale, hw, hsub2, hscale2, hzero, hip, cex_grasp]
    simp only [cexObj, cexState, TARGET_RADIUS]
    norm_num [abs_eq_max_neg, max_def]

/-- Claim C4: in `compute_reward` the in-place score is the tolerance of
the object-to-target distance under the anisotropic norm tripling the
first axis, with bounds `(0, TARGET_RADIUS)` and margin the same weighted
object-to-initial distance, while the end-effector-to-object distance uses
the unweighted Euclidean norm. -/
theorem compute_reward_norms (s : EnvState) (action : List ℝ) (obs : ℕ → ℝ) :
    (compute_reward s action obs).tcp_to_obj = vnorm (obsObj obs - s.tcp_center) ∧
    (∀ v : Vec3, vnorm (scale3 v) = Real.sqrt ((3 * v.x) ^ 2 + v.y ^ 2 + v.z ^ 2)) ∧
    (∀ v : Vec3, vnorm v = Real.sqrt (v.x ^ 2 + v.y ^ 2 + v.z ^ 2)) ∧
    (¬ ((obsObj obs).y > s.target_pos.y - 0.1 ∧ |(obsObj obs).x - s.target_pos.x| > 0.10) →
      (compute_reward s action obs).in_place =
        tolerance (vnorm (scale3 (obsObj obs - s.target_pos))) 0 TARGET_RADIUS
          (vnorm (scale3 (obsObj obs - s.obj_init_pos)))) := by
  refine ⟨rfl, fun v => rfl, fun v => rfl, fun h => ?_⟩
  simp only [compute_reward]
  rw [if_neg h]

/-- Claim C5: the goal-line override replaces the in-place score by its
clamped penalized value exactly when the object is past
`goal_line = target_pos.y - 0.1` on the second axis and more than `0.10`
off the target on the first axis; otherwise the in-place score is returned
unchanged. -/
theorem compute_reward_goal_line_override (s : EnvState) (action : List ℝ) (obs : ℕ → ℝ) :
    (((obsObj obs).y > s.target_pos.y - 0.1 ∧ |(obsObj obs).x - s.target_pos.x| > 0.10) →
      (compute_reward s action obs).in_place =
        clip (tolerance (vnorm (scale3 (obsObj obs - s.target_pos))) 0 TARGET_RADIUS
            (vnorm (scale3 (obsObj obs - s.obj_init_pos))) -
          2 * (((obsObj obs).y - (s.target_pos.y - 0.1)) / (1 - (s.target_pos.y - 0.1))))
          0 1) ∧
    (¬ ((obsObj obs).y > s.target_pos.y - 0.1 ∧ |(obsObj obs).x - s.target_pos.x| > 0.10) →
      (compute_reward s action obs).in_place =
        tolerance (vnorm (scale3 (obsObj obs - s.target_pos))) 0 TARGET_RADIUS
          (vnorm (scale3 (obsObj obs - s.obj_init_pos)))) := by
  constructor
  · intro h
    simp only [compute_reward]
    rw [if_pos h]
  · intro h
    simp only [compute_reward]
    rw [if_neg h]

/-- Claim C6: `evaluate_state` reports `success = 1` iff the true
(unweighted) object-to-target distance is at most `0.07`, `near_object = 1`
iff the end-effector-to-object distance is at most `0.03`, and
`grasp_success = 1` iff the contact predicate holds, the gripper-opening
scalar is positive, and the object's vertical position exceeds its initial
vertical position by more than `0.02`. -/
theorem evaluate_state_flags (s : EnvState) (obs : ℕ → ℝ) (action : List ℝ) :
    ((evaluate_state s obs action).2.success = 1 ↔
      vnorm (obsObj obs - s.target_pos) ≤ 0.07) ∧
    ((evaluate_state s obs action).2.near_object = 1 ↔
      vnorm (obsObj obs - s.tcp_center) ≤ 0.03) ∧
    ((evaluate_state s obs action).2.grasp_success = 1 ↔
      s.touching_object ∧ 0 < obs 3 ∧ s.obj_init_pos.z + 0.02 < (obsObj obs).z) := by
  refine ⟨?_, ?_, ?_⟩
  · simp only [evaluate_state, compute_reward]
    exact indicator_eq_one
  · simp only [evaluate_state, compute_reward]
    exact indicator_eq_one
  · simp only [evaluate_state, compute_reward]
    rw [indicator_eq_one]
    constructor
    · rintro ⟨h1, h2, h3⟩
      exact ⟨h1, h2, by linarith⟩
    · rintro ⟨h1, h2, h3⟩
      exact ⟨h1, h2, by linarith⟩

/-- Claim C2: every draw the rejection loop accepts has first-two-axis
object-to-goal distance at least `0.15`; and when every draw lies in the
configured (degenerate) boxes — object `(0, 0.65)`, goal `(0, 0.85)` —
that distance is exactly `0.2`, so the first draw is accepted and the loop
body never runs. -/
theorem reset_model_min_separation :
    (∀ (draws : ℕ → RandVec) (h : ∃ n, accepts (draws n)),
        0.15 ≤ sep (draws (accepted_index draws h))) ∧
    (∀ draws : ℕ → RandVec, (∀ n, inBox (draws n)) →
        sep (draws 0) = 0.2 ∧ accepts (draws 0) ∧
        ∀ h : ∃ n, accepts (draws n), accepted_index draws h = 0) := by
  constructor
  · intro draws h
    exact Nat.find_spec h
  · intro draws hbox
    have hb := hbox 0
    simp only [inBox, obj_low, goal_low] at hb
    obtain ⟨h1, h2, h3, h4, _, _, h7, h8, h9, h10, _, _⟩ := hb
    have e1 : (draws 0).o.x = 0 := le_antisymm h2 h1
    have e2 : (draws 0).o.y = 0.65 := le_antisymm h4 h3
    have e3 : (draws 0).g.x = 0 := le_antisymm h8 h7
    have e4 : (draws 0).g.y = 0.85 := le_antisymm h10 h9
    have hsep : sep (draws 0) = 0.2 := by
      unfold sep
      rw [e1, e2, e3, e4]
      rw [show ((0 : ℝ) - 0) ^ 2 + (0.65 - 0.85) ^ 2 = 0.2 ^ 2 from by norm_num,
        Real.sqrt_sq (by norm_num)]
    have hacc : accepts (draws 0) := by
      unfold accepts
      rw [hsep]
      norm_num
    refine ⟨hsep, hacc, fun h => ?_⟩
    unfold accepted_index
    rw [Nat.find_eq_zero]
    exact hacc

/-- Claim C9: on every accepted sample from the configured boxes, the
target position's vertical component is the fixed value `0` (the drawn
vector's goal height, which the degenerate box pins to the constant `0.0`),
the object's initial position takes its first two components from the
accepted draw, and its vertical component comes from the stored configured
constant `init_config` value `0.03`. -/
theorem reset_model_heights (draws : ℕ → RandVec) (hbox : ∀ n, inBox (draws n))
    (h : ∃ n, accepts (draws n)) (z : ℝ) :
    (reset_model z draws h).target_pos.z = 0 ∧
    (reset_model z draws h).obj_init_pos.x = (draws (accepted_index draws h)).o.x ∧
    (reset_model z draws h).obj_init_pos.y = (draws (accepted_index draws h)).o.y ∧
    (reset_model init_obj_init_pos.z draws h).obj_init_pos.z = 0.03 := by
  refine ⟨?_, rfl, rfl, rfl⟩
  have hb := hbox (accepted_index draws h)
  simp only [inBox, obj_low, goal_low] at hb
  obtain ⟨_, _, _, _, _, _, _, _, _, _, h11, h12⟩ := hb
  exact le_antisymm h12 h11

/-- The unique vector of the configured degenerate draw space. -/
noncomputable def boxDraw : RandVec := ⟨⟨0, 0.65, 0.03⟩, ⟨0, 0.85, 0⟩⟩

/-- Witness for claim C9: with the constant in-box draw stream, the reset
target height is `0` and the object's initial height is the configured
`0.03`. -/
theorem reset_model_heights_witness :
    ∃ h : ∃ n, accepts ((fun _ : ℕ => boxDraw) n),
      (reset_model 0 (fun _ : ℕ => boxDraw) h).target_pos.z = 0 ∧
      (reset_model init_obj_init_pos.z (fun _ : ℕ => boxDraw) h).obj_init_pos.z = 0.03 := by
  have hbox : ∀ n : ℕ, inBox ((fun _ : ℕ => boxDraw) n) := by
    intro n
    simp only [inBox, boxDraw, obj_low, goal_low]
    norm_num
  have hacc : accepts boxDraw := by
    simp only [accepts, sep, boxDraw]
    rw [show ((0 : ℝ) - 0) ^ 2 + (0.65 - 0.85) ^ 2 = 0.2 ^ 2 from by norm_num,
      Real.sqrt_sq (by norm_num)]
    norm_num
  have h : ∃ n, accepts ((fun _ : ℕ => boxDraw) n) := ⟨0, hacc⟩
  obtain ⟨hz, _, _, ho⟩ := reset_model_heights (fun _ : ℕ => boxDraw) hbox h 0
  exact ⟨h, hz, ho⟩

end SoccerV2
